import Mathlib

/-!
Shallow embedding of the funds-transfer and balance-consistency core of the
Banking-Management-System-Database repository.

Source of truth: `src/bankingdb` (the revision with the transfer engine):
  * `database.py` — MySQL schema: `account` has `CHECK (balance >= 0)`,
    `transaction` has `CHECK (amount > 0)` plus foreign keys into `account`.
  * `routes/transaction.py` — `money_transfer`, `create_transaction`,
    `delete_transaction`, `get_account_transactions`.
  * `routes/account.py` — `create_account`, `update_account_balance`.

Modelling conventions: money amounts (`DECIMAL(15,2)`) are integers in the
smallest currency unit; timestamps are naturals supplied by the caller (the
routes call `datetime.now()`); a table keyed by a CHAR(36) primary key is a
function `String → Option row`; the `transaction` table is a list in insertion
order; `customer` and `branch` rows are read only for existence, so those
tables are sets of primary keys.  JSON request bodies become structures of
`Option` fields (`none` = field absent).
-/

namespace Banking

/-- A row of the `account` table (`database.py`, `init_db`), minus its key
`account_id`, which is the index into the store. -/
structure Account where
  customer_id : String
  account_type : String
  balance : Int
  creation_date : Nat
  branch_id : String
deriving Repr, DecidableEq

/-- A row of the `transaction` table.  `to_account_id` is nullable in the
schema (`none` for deposits and withdrawals). -/
structure Transaction where
  transaction_id : String
  from_account_id : String
  to_account_id : Option String
  transaction_type : String
  amount : Int
  transaction_timestamp : Nat
deriving Repr, DecidableEq

/-- A row of the `user` table, reduced to the one column `money_transfer`
reads (`SELECT customer_id FROM user WHERE user_id = %s`); the column is
nullable in the schema. -/
structure UserRow where
  customer_id : Option String
deriving Repr, DecidableEq

/-- The database state the core touches.  `customers` and `branches` hold the
set of existing primary keys (the transfer core only ever tests whether such a
row exists). -/
structure DBState where
  users : String → Option UserRow
  customers : String → Bool
  branches : String → Bool
  accounts : String → Option Account
  transactions : List Transaction

/-- The balance of account `id`, zero when no such row exists (used only to
state theorems; the routes always check existence first). -/
def balance (db : DBState) (id : String) : Int :=
  match db.accounts id with
  | none => 0
  | some a => a.balance

/-- Store the row `a` under key `id` (the effect of an INSERT or of an UPDATE
of the single row with this primary key). -/
def setAccount (db : DBState) (id : String) (a : Account) : DBState :=
  { db with accounts := fun k => if k = id then some a else db.accounts k }

/-- `CHECK (balance >= 0)` together with the `customer_id` and `branch_id`
foreign keys of the `account` table. -/
def accountRowOk (db : DBState) (a : Account) : Bool :=
  decide (0 ≤ a.balance) && db.customers a.customer_id && db.branches a.branch_id

/-- `INSERT INTO account …`: fails (raises in the route) when the primary key
is taken or a table constraint is violated. -/
def insertAccount (db : DBState) (id : String) (a : Account) : Option DBState :=
  if (db.accounts id).isNone && accountRowOk db a then some (setAccount db id a)
  else none

/-- `UPDATE account SET balance = balance + delta WHERE account_id = id`.
When no row matches, the statement is a no-op; when the updated row would
violate `CHECK (balance >= 0)`, the statement raises, modelled as `none`. -/
def updateBalanceBy (db : DBState) (id : String) (delta : Int) : Option DBState :=
  match db.accounts id with
  | none => some db
  | some a =>
      if 0 ≤ a.balance + delta then
        some (setAccount db id { a with balance := a.balance + delta })
      else none

/-- The nullable `to_account_id` foreign key of the `transaction` table. -/
def toAccountOk (db : DBState) : Option String → Bool
  | none => true
  | some a => (db.accounts a).isSome

/-- `INSERT INTO transaction …`: fails (raises in the route) when the
`transaction_id` PRIMARY KEY is already taken, when `CHECK (amount > 0)` is
violated, or when a foreign key into `account` is violated. -/
def insertTransaction (db : DBState) (t : Transaction) : Option DBState :=
  if (db.transactions.all fun t0 => t0.transaction_id != t.transaction_id) &&
      decide (0 < t.amount) && (db.accounts t.from_account_id).isSome &&
      toAccountOk db t.to_account_id then
    some { db with transactions := db.transactions ++ [t] }
  else none

/-- Python truthiness of an optional string field (`not s` is true exactly for
a missing or empty string). -/
def truthyStr : Option String → Bool
  | none => false
  | some s => s != ""

/-- Python truthiness of an optional numeric field (`not n` is true exactly
for a missing or zero number). -/
def truthyNum : Option Int → Bool
  | none => false
  | some n => n != 0

/-- One character of a hexadecimal digit. -/
def isHexDigit (c : Char) : Bool :=
  c.isDigit || ('a' ≤ c && c ≤ 'f') || ('A' ≤ c && c ≤ 'F')

/-- `uuid.UUID(s)` succeeding, modelled on the canonical hyphenated textual
form 8-4-4-4-12 (hex digits with dashes at offsets 8, 13, 18 and 23). -/
def isValidUUID (s : String) : Bool :=
  let cs := s.data
  cs.length == 36 &&
    (List.range 36).all fun i =>
      if i == 8 || i == 13 || i == 18 || i == 23 then cs.getD i ' ' == '-'
      else isHexDigit (cs.getD i ' ')

/-- The JSON body of `POST /money_transfer` as the route reads it with
`data.get`. -/
structure TransferRequest where
  sender_account_id : Option String
  receiver_account_id : Option String
  amount : Option Int
deriving Repr, DecidableEq

/-- The outcomes of `money_transfer`, one per `return` of the route. -/
inductive TransferResult where
  /-- 404 `'customer_id is None'`: no `user` row for the JWT identity. -/
  | customerIdNone
  /-- 404 `'No customer exists with this customer_id'`. -/
  | noCustomer
  /-- 400 `'All fields are required: …'`. -/
  | missingFields
  /-- 400 `'Invalid UUID format'`. -/
  | invalidUUID
  /-- 400 `'Amount must be greater than 0'`. -/
  | invalidAmount
  /-- 404 `'No account exists with this account_id sender'`. -/
  | senderNotFound
  /-- 403 `'Access denied: …'`. -/
  | accessDenied
  /-- 404 `'No account exists with this account_id receiver'`. -/
  | receiverNotFound
  /-- 400 `'Insufficient balance'`. -/
  | insufficientBalance
  /-- 500, after `connection.rollback()`. -/
  | serverError
  /-- 201 `'Money transfer is successful'` with the echoed fields. -/
  | success (sender_account_id receiver_account_id : String) (amount : Int)
      (transaction_timestamp : Nat)
deriving Repr, DecidableEq

/-- The ledger row `money_transfer` INSERTs.  The route's INSERT lists no
`transaction_id` column, so the row carries no generated identifier: under
MySQL's non-strict modes the missing column is stored as its implicit default
`''` (under strict sql_mode the INSERT fails outright), so a second committed
transfer collides with the first on the empty-string primary key and rolls
back as a 500. -/
def transferTx (sender receiver : String) (amount : Int) (now : Nat) : Transaction :=
  { transaction_id := ""
    from_account_id := sender
    to_account_id := some receiver
    transaction_type := "TRANSFER"
    amount := amount
    transaction_timestamp := now }

/-- The commit phase of `money_transfer`: debit the sender, credit the
receiver, append the TRANSFER ledger row.  `none` models an exception, which
the route answers by rolling the whole unit back. -/
def performTransfer (db : DBState) (sender receiver : String) (amount : Int)
    (now : Nat) : Option DBState :=
  match updateBalanceBy db sender (-amount) with
  | none => none
  | some db1 =>
      match updateBalanceBy db1 receiver amount with
      | none => none
      | some db2 => insertTransaction db2 (transferTx sender receiver amount now)

/-- `routes/transaction.py`, `money_transfer`.  `user_id` is the JWT identity,
`now` the value of `datetime.now()`.  Every non-success branch returns before
`connection.commit()` (or after `connection.rollback()`), so it pairs its
result with the unchanged state. -/
def money_transfer (db : DBState) (user_id : String) (req : TransferRequest)
    (now : Nat) : TransferResult × DBState :=
  match db.users user_id with
  | none => (.customerIdNone, db)
  | some urow =>
      match urow.customer_id with
      | none => (.noCustomer, db)
      | some customer_id =>
          if !db.customers customer_id then (.noCustomer, db)
          else if !(truthyStr req.sender_account_id &&
              truthyStr req.receiver_account_id && truthyNum req.amount) then
            (.missingFields, db)
          else if !(isValidUUID (req.sender_account_id.getD "") &&
              isValidUUID (req.receiver_account_id.getD "")) then
            (.invalidUUID, db)
          else if req.amount.getD 0 ≤ 0 then (.invalidAmount, db)
          else
            match db.accounts (req.sender_account_id.getD "") with
            | none => (.senderNotFound, db)
            | some sender_account =>
                if sender_account.customer_id ≠ customer_id then
                  (.accessDenied, db)
                else
                  match db.accounts (req.receiver_account_id.getD "") with
                  | none => (.receiverNotFound, db)
                  | some _ =>
                      if sender_account.balance < req.amount.getD 0 then
                        (.insufficientBalance, db)
                      else
                        match performTransfer db (req.sender_account_id.getD "")
                            (req.receiver_account_id.getD "")
                            (req.amount.getD 0) now with
                        | none => (.serverError, db)
                        | some db3 =>
                            (.success (req.sender_account_id.getD "")
                              (req.receiver_account_id.getD "")
                              (req.amount.getD 0) now, db3)

/-- The outcomes of `update_account_balance` (`routes/account.py`).  The
source also contains returns for 400 `'Insufficient funds'` and 200 with a
new balance (lines 295-309), but those lines are unreachable (see
`update_account_balance`), so they have no constructor here. -/
inductive UpdateBalanceResult where
  /-- `'Invalid UUID string for account_id'`. -/
  | invalidUUID
  /-- 400 `'Amount is required'`. -/
  | amountRequired
  /-- 404 `'Account not found'`. -/
  | accountNotFound
  /-- 500 (the blanket `except Exception`), uncommitted work discarded. -/
  | serverError
deriving Repr, DecidableEq

/-- `routes/account.py`, `update_account_balance` (`PUT
/accounts/<account_id>/balance`): the direct deposit/withdrawal route.
`amount?` is `data['amount']` when present (`'amount' not in data` is a
presence test, not a truthiness test).  After the UUID, amount-presence and
row-existence checks, the route runs `current_balance = result[0]`; the
connection is configured with `pymysql.cursors.DictCursor` (`database.py`),
so the fetched row is a dict and `result[0]` raises `KeyError`, which the
blanket `except Exception` turns into HTTP 500 with nothing committed.  The
insufficient-funds guard, the UPDATE and the success return below that line
are dead code: no request ever commits a balance change, and nothing is ever
INSERTed into `transaction`. -/
def update_account_balance (db : DBState) (account_id : String)
    (amount? : Option Int) : UpdateBalanceResult × DBState :=
  if !isValidUUID account_id then (.invalidUUID, db)
  else
    match amount? with
    | none => (.amountRequired, db)
    | some _amount =>
        match db.accounts account_id with
        | none => (.accountNotFound, db)
        | some _a => (.serverError, db)

/-- The JSON body of `POST /accounts`; presence of each key is what the route
tests (`field not in data`). -/
structure CreateAccountRequest where
  customer_id : Option String
  account_type : Option String
  branch_id : Option String
deriving Repr, DecidableEq

/-- The outcomes of `create_account` (`routes/account.py`). -/
inductive CreateAccountResult where
  /-- 400 `'Missing required fields: …'`. -/
  | missingFields
  /-- 400 `'Invalid account type. …'`. -/
  | invalidAccountType
  /-- 500 (INSERT raised). -/
  | serverError
  /-- 201 with the generated account id. -/
  | success (account_id : String)
deriving Repr, DecidableEq

/-- `routes/account.py`, `create_account`: INSERTs a row with the generated
`account_id` (passed in, for `str(uuid.uuid4())`), default balance `0.00` and
`creation_date = datetime.now()` (passed as `now`). -/
def create_account (db : DBState) (req : CreateAccountRequest)
    (account_id : String) (now : Nat) : CreateAccountResult × DBState :=
  match req.customer_id, req.account_type, req.branch_id with
  | some customer_id, some account_type, some branch_id =>
      if !(account_type == "CHECKING" || account_type == "SAVINGS") then
        (.invalidAccountType, db)
      else
        match insertAccount db account_id
            { customer_id := customer_id, account_type := account_type,
              balance := 0, creation_date := now, branch_id := branch_id } with
        | none => (.serverError, db)
        | some db1 => (.success account_id, db1)
  | _, _, _ => (.missingFields, db)

/-- The JSON body of `POST /transactions` (admin endpoint); presence of each
key is what the route tests. -/
structure CreateTransactionRequest where
  from_account_id : Option String
  to_account_id : Option String
  transaction_type : Option String
  amount : Option Int
deriving Repr, DecidableEq

/-- The outcomes of `create_transaction` (`routes/transaction.py`). -/
inductive CreateTransactionResult where
  /-- 400 `'Missing required fields: …'`. -/
  | missingFields
  /-- 400 `'Invalid transaction type. …'`. -/
  | invalidType
  /-- 400 `'To account ID is required for transfers.'`. -/
  | missingToAccount
  /-- 500 (INSERT raised, e.g. a constraint violation). -/
  | serverError
  /-- 201 with the generated transaction id. -/
  | success (transaction_id : String)
deriving Repr, DecidableEq

/-- `routes/transaction.py`, `create_transaction` (admin-only `POST
/transactions`).  It validates field presence and the transaction type, but
not the sign of `amount`: only the table's `CHECK (amount > 0)` stands between
a non-positive request and the ledger. -/
def create_transaction (db : DBState) (req : CreateTransactionRequest)
    (transaction_id : String) (now : Nat) : CreateTransactionResult × DBState :=
  match req.from_account_id, req.transaction_type, req.amount with
  | some from_id, some ttype, some amount =>
      if !(ttype == "DEPOSIT" || ttype == "WITHDRAWAL" || ttype == "TRANSFER") then
        (.invalidType, db)
      else if ttype == "TRANSFER" && req.to_account_id.isNone then
        (.missingToAccount, db)
      else
        match insertTransaction db
            { transaction_id := transaction_id, from_account_id := from_id,
              to_account_id := req.to_account_id, transaction_type := ttype,
              amount := amount, transaction_timestamp := now } with
        | none => (.serverError, db)
        | some db1 => (.success transaction_id, db1)
  | _, _, _ => (.missingFields, db)

/-- The outcomes of `delete_transaction` (`routes/transaction.py`). -/
inductive DeleteTransactionResult where
  /-- `'Invalid UUID string for transaction_id'`. -/
  | invalidUUID
  /-- 404 `'Transaction not found'` (`cursor.rowcount == 0`). -/
  | notFound
  /-- 200 `'Transaction deleted successfully'`. -/
  | success
deriving Repr, DecidableEq

/-- `routes/transaction.py`, `delete_transaction` (admin-only `DELETE
/transactions/<transaction_id>`): `DELETE FROM transaction WHERE
transaction_id = %s`, committed before the rowcount test. -/
def delete_transaction (db : DBState) (transaction_id : String) :
    DeleteTransactionResult × DBState :=
  if !isValidUUID transaction_id then (.invalidUUID, db)
  else if (db.transactions.filter
        fun t => t.transaction_id != transaction_id).length ==
      db.transactions.length then
    (.notFound,
      { db with
        transactions :=
          db.transactions.filter (fun t => t.transaction_id != transaction_id) })
  else
    (.success,
      { db with
        transactions :=
          db.transactions.filter (fun t => t.transaction_id != transaction_id) })

/-- The outcomes of `get_account_transactions` (`routes/transaction.py`). -/
inductive AccountTransactionsResult where
  /-- `'Invalid UUID string for account_id'`. -/
  | invalidUUID
  /-- 200 with the selected rows. -/
  | ok (rows : List Transaction)
deriving Repr, DecidableEq

/-- `routes/transaction.py`, `get_account_transactions` (`GET
/accounts/<account_id>/transactions`): `SELECT * FROM transaction WHERE
from_account_id = %s OR to_account_id = %s` (a NULL `to_account_id` matches
nothing).  The query carries no ORDER BY, so the order in which the storage
engine enumerates the `transaction` table is unspecified (InnoDB clusters on
the random-UUID primary key, not on insertion order): `readOrder` is that
storage-determined enumeration of the stored rows — in the theorems, an
arbitrary permutation of the state's `transactions`. -/
def get_account_transactions (readOrder : List Transaction)
    (account_id : String) : AccountTransactionsResult :=
  if !isValidUUID account_id then .invalidUUID
  else
    .ok (readOrder.filter fun t =>
      t.from_account_id == account_id || t.to_account_id == some account_id)

/-- The balance- or ledger-touching operations of the system, with every
nondeterministic ingredient (JWT identity, request body, generated UUID,
clock) made explicit. -/
inductive Op where
  | transfer (user_id : String) (req : TransferRequest) (now : Nat)
  | updateBalance (account_id : String) (amount? : Option Int)
  | createAccount (req : CreateAccountRequest) (account_id : String) (now : Nat)
  | createTransaction (req : CreateTransactionRequest) (transaction_id : String)
      (now : Nat)
  | deleteTransaction (transaction_id : String)

/-- The state left behind by one committed (or failed-and-rolled-back)
operation. -/
def applyOp (db : DBState) : Op → DBState
  | .transfer uid req now => (money_transfer db uid req now).2
  | .updateBalance id am => (update_account_balance db id am).2
  | .createAccount req id now => (create_account db req id now).2
  | .createTransaction req id now => (create_transaction db req id now).2
  | .deleteTransaction id => (delete_transaction db id).2

/-- States reachable from an initial state with an empty ledger by any
sequence of the modelled operations. -/
inductive Reachable : DBState → Prop where
  | init (db : DBState) : db.transactions = [] → Reachable db
  | step (db : DBState) (op : Op) : Reachable db → Reachable (applyOp db op)

/-- Every account row in the state has a non-negative balance. -/
def NonNegBalances (db : DBState) : Prop :=
  ∀ k a, db.accounts k = some a → 0 ≤ a.balance

/-- Every ledger row in the state has a strictly positive amount. -/
def LedgerPositive (db : DBState) : Prop :=
  ∀ t ∈ db.transactions, 0 < t.amount

/-! ### Concrete states, used to instantiate the theorems below -/

/-- A canonical account identifier. -/
def uuidS : String := "11111111-1111-1111-1111-111111111111"

/-- A second canonical account identifier. -/
def uuidR : String := "22222222-2222-2222-2222-222222222222"

/-- A canonical transaction identifier. -/
def uuidT : String := "33333333-3333-3333-3333-333333333333"

/-- A canonical identifier bound to no row. -/
def uuidX : String := "44444444-4444-4444-4444-444444444444"

/-- A checking account of customer `c1` holding 100. -/
def acctS : Account :=
  { customer_id := "c1", account_type := "CHECKING", balance := 100,
    creation_date := 0, branch_id := "b1" }

/-- A savings account of customer `c2` holding 0. -/
def acctR : Account :=
  { customer_id := "c2", account_type := "SAVINGS", balance := 0,
    creation_date := 0, branch_id := "b1" }

/-- A committed TRANSFER ledger row of amount 60 from `uuidS` to `uuidR`. -/
def demoTx : Transaction :=
  { transaction_id := uuidT, from_account_id := uuidS,
    to_account_id := some uuidR, transaction_type := "TRANSFER", amount := 60,
    transaction_timestamp := 1 }

/-- Two users (`u1` ↦ customer `c1`, `u2` ↦ customer `c2`), two accounts, an
empty ledger. -/
def demoDB : DBState :=
  { users := fun k =>
      if k = "u1" then some { customer_id := some "c1" }
      else if k = "u2" then some { customer_id := some "c2" }
      else none
    customers := fun k => k == "c1" || k == "c2"
    branches := fun k => k == "b1"
    accounts := fun k =>
      if k = uuidS then some acctS
      else if k = uuidR then some acctR
      else none
    transactions := [] }

/-- `demoDB` with one committed ledger row. -/
def demoLedgerDB : DBState := { demoDB with transactions := [demoTx] }

/-- A second ledger row touching `uuidS` (as destination), stamped later. -/
def demoTx2 : Transaction :=
  { transaction_id := uuidX, from_account_id := uuidR,
    to_account_id := some uuidS, transaction_type := "TRANSFER", amount := 25,
    transaction_timestamp := 2 }

/-- `demoDB` with two committed ledger rows, appended in timestamp order. -/
def demoLedger2DB : DBState :=
  { demoDB with transactions := [demoTx, demoTx2] }

/-- A well-formed transfer request of amount 60 from `uuidS` to `uuidR`. -/
def demoReq : TransferRequest := ⟨some uuidS, some uuidR, some 60⟩

/-- A transfer request whose amount 500 exceeds the sender balance 100. -/
def demoReqBig : TransferRequest := ⟨some uuidS, some uuidR, some 500⟩

/-- A small transfer request from `uuidS` to `uuidR`. -/
def demoReqSmall : TransferRequest := ⟨some uuidS, some uuidR, some 10⟩

/-- A transfer request towards the nonexistent account `uuidX`. -/
def demoReqX : TransferRequest := ⟨some uuidS, some uuidX, some 10⟩

/-- The state after the successful demo transfer. -/
def demoPost : DBState := (money_transfer demoDB "u1" demoReq 7).2

/-! ### Basic lemmas about the store primitives -/

theorem setAccount_accounts (db : DBState) (id : String) (a : Account)
    (k : String) :
    (setAccount db id a).accounts k = if k = id then some a else db.accounts k :=
  rfl

theorem setAccount_transactions (db : DBState) (id : String) (a : Account) :
    (setAccount db id a).transactions = db.transactions := rfl

theorem updateBalanceBy_transactions {db db' : DBState} {id : String} {d : Int}
    (h : updateBalanceBy db id d = some db') :
    db'.transactions = db.transactions := by
  unfold updateBalanceBy at h
  split at h
  · cases h; rfl
  · split at h
    · cases h; rfl
    · cases h

theorem updateBalanceBy_some_of {db : DBState} {id : String} {a : Account}
    {d : Int} (ha : db.accounts id = some a) (hnn : 0 ≤ a.balance + d) :
    updateBalanceBy db id d =
      some (setAccount db id { a with balance := a.balance + d }) := by
  unfold updateBalanceBy
  rw [ha]
  simp [hnn]

theorem insertTransaction_inv {db db' : DBState} {t : Transaction}
    (h : insertTransaction db t = some db') :
    db'.accounts = db.accounts ∧ db'.transactions = db.transactions ++ [t] ∧
      0 < t.amount := by
  unfold insertTransaction at h
  split at h
  · cases h
    refine ⟨rfl, rfl, ?_⟩
    rename_i hc
    simp only [Bool.and_eq_true, decide_eq_true_eq] at hc
    exact hc.1.1.2
  · cases h

theorem updateBalanceBy_accounts_other {db db' : DBState} {id : String}
    {d : Int} (h : updateBalanceBy db id d = some db') (k : String)
    (hk : k ≠ id) : db'.accounts k = db.accounts k := by
  unfold updateBalanceBy at h
  split at h
  · cases h; rfl
  · split at h
    · cases h; simp [setAccount_accounts, hk]
    · cases h

theorem updateBalanceBy_inv_some {db db' : DBState} {id : String} {a0 : Account}
    {d : Int} (ha : db.accounts id = some a0)
    (h : updateBalanceBy db id d = some db') :
    0 ≤ a0.balance + d ∧
      db' = setAccount db id { a0 with balance := a0.balance + d } := by
  unfold updateBalanceBy at h
  split at h
  · rename_i heq
    rw [ha] at heq
    exact Option.noConfusion heq
  · rename_i a1 heq
    rw [ha] at heq
    injection heq with e
    subst e
    split at h
    · cases h; exact ⟨by assumption, rfl⟩
    · cases h

theorem truthyStr_some {o : Option String} (h : truthyStr o = true) :
    ∃ x, o = some x ∧ x ≠ "" := by
  cases o with
  | none => cases h
  | some x =>
      refine ⟨x, rfl, ?_⟩
      simpa [truthyStr, bne_iff_ne] using h

theorem truthyNum_some {o : Option Int} (h : truthyNum o = true) :
    ∃ n, o = some n ∧ n ≠ 0 := by
  cases o with
  | none => cases h
  | some n =>
      refine ⟨n, rfl, ?_⟩
      simpa [truthyNum, bne_iff_ne] using h

theorem isValidUUID_ne_empty {s : String} (h : isValidUUID s = true) :
    (s != "") = true := by
  cases hbe : (s != "") with
  | false =>
      rw [bne_eq_false_iff_eq] at hbe
      subst hbe
      exact absurd h (by decide)
  | true => rfl

/-- Every outcome of `money_transfer` either leaves the state untouched or is
the committed state of `performTransfer`. -/
theorem money_transfer_snd_cases (db : DBState) (uid : String)
    (req : TransferRequest) (now : Nat) :
    (money_transfer db uid req now).2 = db ∨
      ∃ s r a, performTransfer db s r a now =
        some (money_transfer db uid req now).2 := by
  unfold money_transfer
  iterate 15 (all_goals try split)
  all_goals try exact Or.inl rfl
  rename_i heq
  exact Or.inr ⟨_, _, _, by rw [heq]⟩

/-- Inversion of a successful `money_transfer`: the request fields resolved to
the echoed values, every precondition held, and the final state is the one
`performTransfer` committed. -/
theorem money_transfer_success_inv {db db' : DBState} {uid s r : String}
    {req : TransferRequest} {now ts : Nat} {a : Int}
    (h : money_transfer db uid req now = (.success s r a ts, db')) :
    req.sender_account_id = some s ∧ req.receiver_account_id = some r ∧
      req.amount = some a ∧ ts = now ∧ 0 < a ∧
      (∃ sa, db.accounts s = some sa ∧ a ≤ sa.balance) ∧
      (∃ ra, db.accounts r = some ra) ∧
      performTransfer db s r a now = some db' := by
  unfold money_transfer at h
  iterate 15 (all_goals try split at h)
  all_goals try exact TransferResult.noConfusion (congrArg Prod.fst h)
  rename_i xu urow hu xc cid hcid hcust htruthy huuid hamt xs sa hsa hown xr ra
    hra hbal xp db2 hpt
  injection h with h1 h2
  injection h1 with e1 e2 e3 e4
  have htr : truthyStr req.sender_account_id = true ∧
      truthyStr req.receiver_account_id = true ∧ truthyNum req.amount = true := by
    rcases hx : truthyStr req.sender_account_id <;>
      rcases hy : truthyStr req.receiver_account_id <;>
        rcases hz : truthyNum req.amount <;> simp_all
  obtain ⟨hs0, hr0, hn0⟩ := htr
  obtain ⟨sv, hsv, -⟩ := truthyStr_some hs0
  obtain ⟨rv, hrv, -⟩ := truthyStr_some hr0
  obtain ⟨nv, hnv, -⟩ := truthyNum_some hn0
  simp only [hsv, hrv, hnv, Option.getD_some] at hsa hra hbal hamt hpt e1 e2 e3
  subst e1
  subst e2
  subst e3
  exact ⟨hsv, hrv, hnv, e4.symm, by omega, ⟨sa, hsa, by omega⟩, ⟨ra, hra⟩,
    h2 ▸ hpt⟩

/-- Inversion of a committed `performTransfer` between two distinct accounts:
the exact post-state of both rows, the frame on all other rows, and the
appended ledger row. -/
theorem performTransfer_inv {db db' : DBState} {s r : String} {a : Int}
    {now : Nat} {sa ra : Account} (hne : s ≠ r)
    (hs : db.accounts s = some sa) (hr : db.accounts r = some ra)
    (h : performTransfer db s r a now = some db') :
    db'.accounts s = some { sa with balance := sa.balance - a } ∧
      db'.accounts r = some { ra with balance := ra.balance + a } ∧
      (∀ k, k ≠ s → k ≠ r → db'.accounts k = db.accounts k) ∧
      db'.transactions = db.transactions ++ [transferTx s r a now] := by
  unfold performTransfer at h
  split at h
  · cases h
  rename_i db1 h1
  split at h
  · cases h
  rename_i db2 h2
  obtain ⟨hnn1, hdb1⟩ := updateBalanceBy_inv_some hs h1
  subst hdb1
  have hr1 : (setAccount db s { sa with balance := sa.balance + -a }).accounts r
      = some ra := by
    simp [setAccount_accounts, Ne.symm hne]
    exact hr
  obtain ⟨hnn2, hdb2⟩ := updateBalanceBy_inv_some hr1 h2
  subst hdb2
  obtain ⟨hacc, htx, hpos⟩ := insertTransaction_inv h
  refine ⟨?_, ?_, ?_, ?_⟩
  · rw [hacc]
    simp [setAccount_accounts, hne, sub_eq_add_neg]
  · rw [hacc]
    simp [setAccount_accounts]
  · intro k hks hkr
    rw [hacc]
    simp [setAccount_accounts, hks, hkr]
  · rw [htx]
    rfl

/-- A committed `performTransfer` appends exactly its TRANSFER row, and that
row's amount is positive. -/
theorem performTransfer_transactions {db db' : DBState} {s r : String} {a : Int}
    {now : Nat} (h : performTransfer db s r a now = some db') :
    db'.transactions = db.transactions ++ [transferTx s r a now] ∧ 0 < a := by
  unfold performTransfer at h
  split at h
  · cases h
  rename_i db1 h1
  split at h
  · cases h
  rename_i db2 h2
  obtain ⟨hacc, htx, hpos⟩ := insertTransaction_inv h
  have e1 := updateBalanceBy_transactions h1
  have e2 := updateBalanceBy_transactions h2
  rw [htx, e2, e1]
  exact ⟨rfl, hpos⟩

/-- `setAccount` with a non-negative row preserves the balance invariant. -/
theorem setAccount_nonneg {db : DBState} {id : String} {a : Account}
    (hn : NonNegBalances db) (ha : 0 ≤ a.balance) :
    NonNegBalances (setAccount db id a) := by
  intro k a' hk
  rw [setAccount_accounts] at hk
  split at hk
  · cases hk; exact ha
  · exact hn k a' hk

theorem updateBalanceBy_nonneg {db db' : DBState} {id : String} {d : Int}
    (h : updateBalanceBy db id d = some db') (hn : NonNegBalances db) :
    NonNegBalances db' := by
  unfold updateBalanceBy at h
  split at h
  · cases h; exact hn
  · rename_i a0 heq
    split at h
    · cases h
      rename_i hge
      exact setAccount_nonneg hn hge
    · cases h

theorem insertAccount_nonneg {db db' : DBState} {id : String} {a : Account}
    (h : insertAccount db id a = some db') (hn : NonNegBalances db) :
    NonNegBalances db' := by
  unfold insertAccount at h
  split at h
  · cases h
    rename_i hok
    simp only [Bool.and_eq_true, decide_eq_true_eq, accountRowOk] at hok
    exact setAccount_nonneg hn hok.2.1.1
  · cases h

theorem performTransfer_nonneg {db db' : DBState} {s r : String} {a : Int}
    {now : Nat} (h : performTransfer db s r a now = some db')
    (hn : NonNegBalances db) : NonNegBalances db' := by
  unfold performTransfer at h
  split at h
  · cases h
  rename_i db1 h1
  split at h
  · cases h
  rename_i db2 h2
  obtain ⟨hacc, -, -⟩ := insertTransaction_inv h
  intro k a' hk
  rw [hacc] at hk
  exact updateBalanceBy_nonneg h2 (updateBalanceBy_nonneg h1 hn) k a' hk

/-- `update_account_balance` never writes to any table: every branch,
including the 500 from the `result[0]` `KeyError`, answers with the state it
was given. -/
theorem update_account_balance_frame (db : DBState) (account_id : String)
    (amount? : Option Int) :
    (update_account_balance db account_id amount?).2 = db := by
  unfold update_account_balance
  iterate 4 (all_goals try split)
  all_goals rfl

/-- `create_account` never writes to the `transaction` table. -/
theorem create_account_transactions (db : DBState) (req : CreateAccountRequest)
    (account_id : String) (now : Nat) :
    ((create_account db req account_id now).2).transactions =
      db.transactions := by
  unfold create_account
  iterate 6 (all_goals try split)
  all_goals try rfl
  rename_i db1 heq
  unfold insertAccount at heq
  split at heq
  · cases heq; rfl
  · cases heq

/-- `create_transaction` leaves the ledger unchanged or appends exactly one
row, which the `CHECK (amount > 0)` constraint forces to be positive. -/
theorem create_transaction_transactions_cases (db : DBState)
    (req : CreateTransactionRequest) (transaction_id : String) (now : Nat) :
    ((create_transaction db req transaction_id now).2).transactions =
        db.transactions ∨
      ∃ t, 0 < t.amount ∧
        ((create_transaction db req transaction_id now).2).transactions =
          db.transactions ++ [t] := by
  unfold create_transaction
  iterate 6 (all_goals try split)
  all_goals try exact Or.inl rfl
  rename_i db1 heq
  obtain ⟨-, htx, hpos⟩ := insertTransaction_inv heq
  exact Or.inr ⟨_, hpos, htx⟩

/-- `create_transaction` never writes to the `account` table. -/
theorem create_transaction_accounts (db : DBState)
    (req : CreateTransactionRequest) (transaction_id : String) (now : Nat) :
    ((create_transaction db req transaction_id now).2).accounts =
      db.accounts := by
  unfold create_transaction
  iterate 6 (all_goals try split)
  all_goals try rfl
  rename_i db1 heq
  exact (insertTransaction_inv heq).1

/-- `delete_transaction` leaves the ledger unchanged or replaces it by the
rows whose identifier differs from the deleted one. -/
theorem delete_transaction_transactions_cases (db : DBState)
    (transaction_id : String) :
    ((delete_transaction db transaction_id).2).transactions = db.transactions ∨
      ((delete_transaction db transaction_id).2).transactions =
        db.transactions.filter fun t => t.transaction_id != transaction_id := by
  unfold delete_transaction
  split
  · exact Or.inl rfl
  · split
    · exact Or.inr rfl
    · exact Or.inr rfl

/-- `delete_transaction` never writes to the `account` table. -/
theorem delete_transaction_accounts (db : DBState) (transaction_id : String) :
    ((delete_transaction db transaction_id).2).accounts = db.accounts := by
  unfold delete_transaction
  split
  · rfl
  · split
    · rfl
    · rfl

/-- Every account of `demoDB` holds a non-negative balance. -/
theorem demoDB_nonneg : NonNegBalances demoDB := by
  intro k a hk
  simp only [demoDB] at hk
  split at hk
  · cases hk; decide
  · split at hk
    · cases hk; decide
    · cases hk

/-! ### The claims -/

/-- C1: a successful `money_transfer` of amount `a` from sender `s` to a
distinct receiver `r` leaves `balance(s)` decreased by exactly `a` and
`balance(r)` increased by exactly `a`, hence their sum is conserved, and
every other account row is untouched. -/
theorem money_transfer_conservation {db db' : DBState} {uid s r : String}
    {req : TransferRequest} {now ts : Nat} {a : Int}
    (h : money_transfer db uid req now = (.success s r a ts, db'))
    (hne : s ≠ r) :
    balance db' s = balance db s - a ∧
      balance db' r = balance db r + a ∧
      balance db' s + balance db' r = balance db s + balance db r ∧
      ∀ k, k ≠ s → k ≠ r → db'.accounts k = db.accounts k := by
  obtain ⟨-, -, -, -, -, ⟨sa, hsa, -⟩, ⟨ra, hra⟩, hpt⟩ :=
    money_transfer_success_inv h
  obtain ⟨h1, h2, hframe, -⟩ := performTransfer_inv hne hsa hra hpt
  refine ⟨?_, ?_, ?_, hframe⟩
  · simp only [balance, h1, hsa]
  · simp only [balance, h2, hra]
  · simp only [balance, h1, h2, hsa, hra]
    ring

/-- Witness for C1: transferring 60 out of the demo account holding 100. -/
theorem money_transfer_conservation_witness :
    balance demoPost uuidS = balance demoDB uuidS - 60 ∧
      balance demoPost uuidR = balance demoDB uuidR + 60 :=
  ⟨(@money_transfer_conservation demoDB demoPost "u1" uuidS uuidR demoReq 7 7
      60 rfl (by decide)).1,
   (@money_transfer_conservation demoDB demoPost "u1" uuidS uuidR demoReq 7 7
      60 rfl (by decide)).2.1⟩

/-- C3: every non-success outcome of `money_transfer` pairs with the state
exactly as it was (no debit, no credit, no ledger append); in particular a
request whose resolved sender balance is below the amount fails with the
insufficient-balance error on the unchanged state. -/
theorem money_transfer_atomic_errors (db : DBState) (uid : String)
    (req : TransferRequest) (now : Nat) :
    (∀ res db', money_transfer db uid req now = (res, db') →
      (∀ s r a ts, res ≠ TransferResult.success s r a ts) → db' = db) ∧
    (∀ urow cid s r a sa, db.users uid = some urow →
      urow.customer_id = some cid → db.customers cid = true →
      req.sender_account_id = some s → req.receiver_account_id = some r →
      req.amount = some a → isValidUUID s = true → isValidUUID r = true →
      0 < a → db.accounts s = some sa → sa.customer_id = cid →
      (db.accounts r).isSome = true → sa.balance < a →
      money_transfer db uid req now = (.insufficientBalance, db)) := by
  constructor
  · intro res db' h herr
    unfold money_transfer at h
    iterate 15 (all_goals try split at h)
    all_goals injection h with h1 h2
    all_goals first
      | exact h2.symm
      | exact absurd h1.symm (herr _ _ _ _)
  · intro urow cid s r a sa hu hcid hcust hs hr ha hvs hvr hpos hacc hown hrx
      hbal
    have hsne := isValidUUID_ne_empty hvs
    have hrne := isValidUUID_ne_empty hvr
    have hane : (a != 0) = true := by
      simp only [bne_iff_ne, ne_eq]
      omega
    obtain ⟨ra, hra⟩ := Option.isSome_iff_exists.mp hrx
    unfold money_transfer
    simp [hu, hcid, hcust, hs, hr, ha, truthyStr, truthyNum, hsne, hrne, hane,
      hvs, hvr, hacc, hown, hra, hpos.not_le, hbal, Option.getD_some]

/-- Witness for C3: a transfer of 500 out of the demo account holding 100
fails with the insufficient-balance error and changes nothing. -/
theorem money_transfer_atomic_errors_witness :
    money_transfer demoDB "u1" demoReqBig 3 = (.insufficientBalance, demoDB) :=
  (money_transfer_atomic_errors demoDB "u1" demoReqBig 3).2
    { customer_id := some "c1" } "c1" uuidS uuidR 500 acctS rfl rfl rfl rfl rfl
    rfl (by decide) (by decide) (by decide) rfl rfl rfl (by decide)

/-- C4: whenever the resolved sender account is not owned by the caller's
customer identity, `money_transfer` answers with the access-denied error and
the unchanged state, regardless of the sender balance (or of anything about
the receiver, which the route has not yet looked up). -/
theorem money_transfer_ownership_enforced
    (db : DBState) (uid cid s r : String) (urow : UserRow)
    (req : TransferRequest) (now : Nat) (a : Int) (sa : Account)
    (hu : db.users uid = some urow) (hcid : urow.customer_id = some cid)
    (hcust : db.customers cid = true)
    (hs : req.sender_account_id = some s) (hr : req.receiver_account_id = some r)
    (ha : req.amount = some a) (hvs : isValidUUID s = true)
    (hvr : isValidUUID r = true) (hpos : 0 < a)
    (hacc : db.accounts s = some sa) (hown : sa.customer_id ≠ cid) :
    money_transfer db uid req now = (.accessDenied, db) := by
  have hsne := isValidUUID_ne_empty hvs
  have hrne := isValidUUID_ne_empty hvr
  have hane : (a != 0) = true := by
    simp only [bne_iff_ne, ne_eq]
    omega
  unfold money_transfer
  simp [hu, hcid, hcust, hs, hr, ha, truthyStr, truthyNum, hsne, hrne, hane,
    hvs, hvr, hacc, hown, hpos.not_le, Option.getD_some]

/-- Witness for C4: user `u2` (customer `c2`) attempting to drain the
well-funded account of customer `c1` is denied. -/
theorem money_transfer_ownership_enforced_witness :
    money_transfer demoDB "u2" demoReqSmall 0 = (.accessDenied, demoDB) :=
  money_transfer_ownership_enforced demoDB "u2" "c2" uuidS uuidR
    { customer_id := some "c2" } demoReqSmall 0 10 acctS rfl rfl rfl rfl rfl
    rfl (by decide) (by decide) (by decide) rfl (by decide)

/-- C2: every modelled balance-changing operation preserves non-negativity of
all account balances — transfers are guarded by the balance check and the
`CHECK (balance >= 0)` constraint, direct deposits/withdrawals by the
new-balance check, and account creation starts at balance 0. -/
theorem balance_nonneg_invariant (db : DBState) (op : Op)
    (h : NonNegBalances db) : NonNegBalances (applyOp db op) := by
  cases op with
  | transfer uid req now =>
      rcases money_transfer_snd_cases db uid req now with he | ⟨s, r, a, hpt⟩
      · simpa only [applyOp, he] using h
      · exact performTransfer_nonneg hpt h
  | updateBalance id am =>
      show NonNegBalances (update_account_balance db id am).2
      rw [update_account_balance_frame]
      exact h
  | createAccount req id now =>
      show NonNegBalances (create_account db req id now).2
      unfold create_account
      iterate 6 (all_goals try split)
      all_goals try exact h
      rename_i db1 heq
      exact insertAccount_nonneg heq h
  | createTransaction req id now =>
      intro k a hk
      rw [show (applyOp db (Op.createTransaction req id now)).accounts =
        db.accounts from create_transaction_accounts db req id now] at hk
      exact h k a hk
  | deleteTransaction id =>
      intro k a hk
      rw [show (applyOp db (Op.deleteTransaction id)).accounts = db.accounts
        from delete_transaction_accounts db id] at hk
      exact h k a hk

/-- Witness for C2: a withdrawal of 40 from the demo account holding 100
leaves every balance non-negative. -/
theorem balance_nonneg_invariant_witness :
    NonNegBalances (applyOp demoDB (Op.updateBalance uuidS (some (-40)))) :=
  balance_nonneg_invariant demoDB (Op.updateBalance uuidS (some (-40)))
    demoDB_nonneg

/-- Counterexample to C5: with a caller that does not own the (existing)
sender account and a receiver account that does not exist, `money_transfer`
answers access-denied, not the receiver's account-not-found error. -/
theorem money_transfer_order_counterexample :
    demoDB.accounts uuidX = none ∧
      (∃ sa, demoDB.accounts uuidS = some sa ∧ sa.customer_id ≠ "c2") ∧
      (money_transfer demoDB "u2" demoReqX 0).1 = TransferResult.accessDenied ∧
      (money_transfer demoDB "u2" demoReqX 0).1 ≠
        TransferResult.receiverNotFound :=
  ⟨rfl, ⟨acctS, rfl, by decide⟩, rfl, by decide⟩

/-- C5 (amended): `money_transfer` checks, in order, amount positivity,
sender existence, sender ownership, receiver existence, and balance
sufficiency — ownership is checked *before* receiver existence, so an unowned
sender yields access-denied even when the receiver does not exist. -/
theorem money_transfer_check_order (db : DBState) (uid cid s r : String)
    (urow : UserRow) (req : TransferRequest) (now : Nat) (a : Int)
    (hu : db.users uid = some urow) (hcid : urow.customer_id = some cid)
    (hcust : db.customers cid = true)
    (hs : req.sender_account_id = some s) (hr : req.receiver_account_id = some r)
    (ha : req.amount = some a)
    (hvs : isValidUUID s = true) (hvr : isValidUUID r = true) :
    (a < 0 → money_transfer db uid req now = (.invalidAmount, db)) ∧
    (0 < a → db.accounts s = none →
      money_transfer db uid req now = (.senderNotFound, db)) ∧
    (∀ sa, 0 < a → db.accounts s = some sa → sa.customer_id ≠ cid →
      money_transfer db uid req now = (.accessDenied, db)) ∧
    (∀ sa, 0 < a → db.accounts s = some sa → sa.customer_id = cid →
      db.accounts r = none →
      money_transfer db uid req now = (.receiverNotFound, db)) ∧
    (∀ sa ra, 0 < a → db.accounts s = some sa → sa.customer_id = cid →
      db.accounts r = some ra → sa.balance < a →
      money_transfer db uid req now = (.insufficientBalance, db)) := by
  have hsne := isValidUUID_ne_empty hvs
  have hrne := isValidUUID_ne_empty hvr
  refine ⟨?_, ?_, ?_, ?_, ?_⟩
  · intro hneg
    have hane : (a != 0) = true := by
      simp only [bne_iff_ne, ne_eq]
      omega
    unfold money_transfer
    simp [hu, hcid, hcust, hs, hr, ha, truthyStr, truthyNum, hsne, hrne, hane,
      hvs, hvr, Option.getD_some, hneg.le]
  · intro hpos hnone
    have hane : (a != 0) = true := by
      simp only [bne_iff_ne, ne_eq]
      omega
    unfold money_transfer
    simp [hu, hcid, hcust, hs, hr, ha, truthyStr, truthyNum, hsne, hrne, hane,
      hvs, hvr, Option.getD_some, hpos.not_le, hnone]
  · intro sa hpos hacc hown
    have hane : (a != 0) = true := by
      simp only [bne_iff_ne, ne_eq]
      omega
    unfold money_transfer
    simp [hu, hcid, hcust, hs, hr, ha, truthyStr, truthyNum, hsne, hrne, hane,
      hvs, hvr, Option.getD_some, hpos.not_le, hacc, hown]
  · intro sa hpos hacc hown hrnone
    have hane : (a != 0) = true := by
      simp only [bne_iff_ne, ne_eq]
      omega
    unfold money_transfer
    simp [hu, hcid, hcust, hs, hr, ha, truthyStr, truthyNum, hsne, hrne, hane,
      hvs, hvr, Option.getD_some, hpos.not_le, hacc, hown, hrnone]
  · intro sa ra hpos hacc hown hra hbal
    have hane : (a != 0) = true := by
      simp only [bne_iff_ne, ne_eq]
      omega
    unfold money_transfer
    simp [hu, hcid, hcust, hs, hr, ha, truthyStr, truthyNum, hsne, hrne, hane,
      hvs, hvr, Option.getD_some, hpos.not_le, hacc, hown, hra, hbal]

/-- Witness for the amended C5: with a caller-owned sender and a nonexistent
receiver the route answers the receiver's account-not-found error. -/
theorem money_transfer_check_order_witness :
    money_transfer demoDB "u1" demoReqX 0 = (.receiverNotFound, demoDB) :=
  (money_transfer_check_order demoDB "u1" "c1" uuidS uuidX
      { customer_id := some "c1" } demoReqX 0 10 rfl rfl rfl rfl rfl rfl
      (by decide) (by decide)).2.2.2.1 acctS (by decide) rfl rfl rfl

/-- C6: evaluating `update_account_balance` at a deposit of 50 into the
existing demo account holding 100: `pymysql.cursors.DictCursor` makes
`result[0]` raise `KeyError`, so the route answers the 500 error and commits
nothing — the balance stays 100, the ledger stays empty, and no branch of the
operation can produce the claimed committed DEPOSIT/WITHDRAWAL ledger entry
(the route contains no INSERT at all). -/
theorem update_account_balance_keyerror :
    update_account_balance demoDB uuidS (some 50) =
        (UpdateBalanceResult.serverError, demoDB) ∧
      balance (update_account_balance demoDB uuidS (some 50)).2 uuidS = 100 ∧
      ((update_account_balance demoDB uuidS (some 50)).2).transactions = [] :=
  ⟨rfl, rfl, rfl⟩

/-- C7: in every state reachable from an empty ledger by the modelled
operations, every ledger row carries a strictly positive amount —
`money_transfer` validates its amount up front and the admin
`create_transaction` endpoint is stopped by the table's `CHECK (amount > 0)`
constraint. -/
theorem ledger_amounts_positive {db : DBState} (h : Reachable db) :
    LedgerPositive db := by
  induction h with
  | init db h0 =>
      intro t ht
      rw [h0] at ht
      cases ht
  | step db op hdb ih =>
      cases op with
      | transfer uid req now =>
          rcases money_transfer_snd_cases db uid req now with he | ⟨s, r, a, hpt⟩
          · intro t ht
            simp only [applyOp] at ht
            rw [he] at ht
            exact ih t ht
          · obtain ⟨htx, hpos⟩ := performTransfer_transactions hpt
            intro t ht
            simp only [applyOp] at ht
            rw [htx] at ht
            rcases List.mem_append.mp ht with h1 | h1
            · exact ih t h1
            · rw [List.mem_singleton] at h1
              subst h1
              exact hpos
      | updateBalance id am =>
          intro t ht
          simp only [applyOp] at ht
          rw [update_account_balance_frame] at ht
          exact ih t ht
      | createAccount req id now =>
          intro t ht
          simp only [applyOp] at ht
          rw [create_account_transactions] at ht
          exact ih t ht
      | createTransaction req id now =>
          rcases create_transaction_transactions_cases db req id now with
            he | ⟨t0, hpos, he⟩
          · intro t ht
            simp only [applyOp] at ht
            rw [he] at ht
            exact ih t ht
          · intro t ht
            simp only [applyOp] at ht
            rw [he] at ht
            rcases List.mem_append.mp ht with h1 | h1
            · exact ih t h1
            · rw [List.mem_singleton] at h1
              subst h1
              exact hpos
      | deleteTransaction id =>
          rcases delete_transaction_transactions_cases db id with he | he
          · intro t ht
            simp only [applyOp] at ht
            rw [he] at ht
            exact ih t ht
          · intro t ht
            simp only [applyOp] at ht
            rw [he] at ht
            exact ih t (List.mem_of_mem_filter ht)

/-- Witness for C7: the ledger after the committed demo transfer holds only
positive amounts. -/
theorem ledger_amounts_positive_witness :
    LedgerPositive (applyOp demoDB (Op.transfer "u1" demoReq 7)) :=
  ledger_amounts_positive
    (Reachable.step demoDB (Op.transfer "u1" demoReq 7)
      (Reachable.init demoDB rfl))

/-- Counterexample to C8: the admin `delete_transaction` endpoint removes a
committed ledger row, so an appended entry does not remain present in all
later states. -/
theorem delete_transaction_counterexample :
    demoLedgerDB.transactions = [demoTx] ∧
      (delete_transaction demoLedgerDB uuidT).1 =
        DeleteTransactionResult.success ∧
      ((delete_transaction demoLedgerDB uuidT).2).transactions = [] :=
  ⟨rfl, rfl, rfl⟩

/-- C8 (amended): excluding the admin `delete_transaction` endpoint (which,
like the older revision's transaction PUT/DELETE resource, can remove or
rewrite rows), every modelled operation only appends to the ledger: the prior
rows remain, in order, a prefix of the new ledger. -/
theorem ledger_append_only_without_delete (db : DBState) (op : Op)
    (hop : ∀ tid, op ≠ Op.deleteTransaction tid) :
    ∃ new, (applyOp db op).transactions = db.transactions ++ new := by
  cases op with
  | transfer uid req now =>
      rcases money_transfer_snd_cases db uid req now with he | ⟨s, r, a, hpt⟩
      · refine ⟨[], ?_⟩
        simp only [applyOp]
        rw [he, List.append_nil]
      · refine ⟨[transferTx s r a now], ?_⟩
        simp only [applyOp]
        exact (performTransfer_transactions hpt).1
  | updateBalance id am =>
      refine ⟨[], ?_⟩
      simp only [applyOp]
      rw [update_account_balance_frame, List.append_nil]
  | createAccount req id now =>
      refine ⟨[], ?_⟩
      simp only [applyOp]
      rw [create_account_transactions, List.append_nil]
  | createTransaction req id now =>
      rcases create_transaction_transactions_cases db req id now with
        he | ⟨t0, -, he⟩
      · refine ⟨[], ?_⟩
        simp only [applyOp]
        rw [he, List.append_nil]
      · refine ⟨[t0], ?_⟩
        simp only [applyOp]
        rw [he]
  | deleteTransaction tid => exact absurd rfl (hop tid)

/-- Witness for the amended C8: a deposit leaves the demo ledger's row in
place, only possibly appending. -/
theorem ledger_append_only_without_delete_witness :
    ∃ new,
      (applyOp demoLedgerDB (Op.updateBalance uuidS (some 5))).transactions =
        demoLedgerDB.transactions ++ new :=
  ledger_append_only_without_delete demoLedgerDB
    (Op.updateBalance uuidS (some 5)) (fun _ h => Op.noConfusion h)

/-- Counterexample to C9: the SELECT has no ORDER BY, so the storage engine
may legitimately enumerate the two stored rows (themselves appended in
timestamp order) with the later row first; the listing then returns the
account's entries out of timestamp order. -/
theorem get_account_transactions_order_counterexample :
    List.Pairwise
        (fun t1 t2 => t1.transaction_timestamp ≤ t2.transaction_timestamp)
        demoLedger2DB.transactions ∧
      List.Perm [demoTx2, demoTx] demoLedger2DB.transactions ∧
      get_account_transactions [demoTx2, demoTx] uuidS =
        AccountTransactionsResult.ok [demoTx2, demoTx] ∧
      ¬ List.Pairwise
        (fun t1 t2 => t1.transaction_timestamp ≤ t2.transaction_timestamp)
        [demoTx2, demoTx] := by
  refine ⟨?_, ?_, ?_, ?_⟩
  · decide
  · decide
  · rfl
  · decide

/-- C9 (amended): for an existing account, `get_account_transactions` returns
exactly the ledger rows whose source or destination account is the requested
one — as a multiset the result equals the matching stored entries, whatever
order the storage engine enumerates the table in — but the query has no ORDER
BY, so no timestamp-ascending ordering is guaranteed. -/
theorem get_account_transactions_membership (db : DBState)
    (account_id : String) (readOrder : List Transaction)
    (hperm : readOrder.Perm db.transactions)
    (hval : isValidUUID account_id = true)
    (_hex : (db.accounts account_id).isSome = true) :
    ∃ rows, get_account_transactions readOrder account_id =
        AccountTransactionsResult.ok rows ∧
      rows.Perm (db.transactions.filter fun t =>
        t.from_account_id == account_id ||
          t.to_account_id == some account_id) ∧
      ∀ t, t ∈ rows ↔ t ∈ db.transactions ∧
        (t.from_account_id = account_id ∨ t.to_account_id = some account_id) := by
  refine ⟨readOrder.filter fun t =>
      t.from_account_id == account_id || t.to_account_id == some account_id,
    ?_, ?_, ?_⟩
  · unfold get_account_transactions
    simp [hval]
  · exact hperm.filter _
  · intro t
    rw [List.mem_filter]
    constructor
    · rintro ⟨h1, h2⟩
      refine ⟨hperm.mem_iff.mp h1, ?_⟩
      simpa only [Bool.or_eq_true, beq_iff_eq] using h2
    · rintro ⟨h1, h2⟩
      refine ⟨hperm.mem_iff.mpr h1, ?_⟩
      simpa only [Bool.or_eq_true, beq_iff_eq] using h2

/-- Witness for the amended C9: listing the demo account's entries from the
reversed storage enumeration of the two-row ledger. -/
theorem get_account_transactions_membership_witness :
    ∃ rows, get_account_transactions [demoTx2, demoTx] uuidS =
        AccountTransactionsResult.ok rows ∧
      rows.Perm (demoLedger2DB.transactions.filter fun t =>
        t.from_account_id == uuidS || t.to_account_id == some uuidS) ∧
      ∀ t, t ∈ rows ↔ t ∈ demoLedger2DB.transactions ∧
        (t.from_account_id = uuidS ∨ t.to_account_id = some uuidS) :=
  get_account_transactions_membership demoLedger2DB uuidS [demoTx2, demoTx]
    (by decide) (by decide) rfl

/-- C10: `money_transfer` tests field presence by truthiness, so an amount of
exactly 0 or an empty-string account id draws the missing-required-fields
error, and the dedicated amount-validation error is reached only for amounts
strictly below 0. -/
theorem money_transfer_truthiness (db : DBState) (uid cid : String)
    (urow : UserRow) (req : TransferRequest) (now : Nat)
    (hu : db.users uid = some urow) (hcid : urow.customer_id = some cid)
    (hcust : db.customers cid = true) :
    (req.amount = some 0 →
      money_transfer db uid req now = (.missingFields, db)) ∧
    (req.sender_account_id = some "" →
      money_transfer db uid req now = (.missingFields, db)) ∧
    (req.receiver_account_id = some "" →
      money_transfer db uid req now = (.missingFields, db)) ∧
    (∀ res db', money_transfer db uid req now = (res, db') →
      res = TransferResult.invalidAmount →
      ∃ a, req.amount = some a ∧ a < 0) := by
  refine ⟨?_, ?_, ?_, ?_⟩
  · intro h0
    unfold money_transfer
    simp [hu, hcid, hcust, h0, truthyNum]
  · intro h0
    unfold money_transfer
    simp [hu, hcid, hcust, h0, truthyStr]
  · intro h0
    unfold money_transfer
    simp [hu, hcid, hcust, h0, truthyStr]
  · intro res db' h hres
    subst hres
    unfold money_transfer at h
    iterate 15 (all_goals try split at h)
    all_goals try exact TransferResult.noConfusion (congrArg Prod.fst h)
    rename_i htruthy huuid hle
    have htr : truthyNum req.amount = true := by
      rcases hx : truthyStr req.sender_account_id <;>
        rcases hy : truthyStr req.receiver_account_id <;>
          rcases hz : truthyNum req.amount <;> simp_all
    obtain ⟨a, hae, ha0⟩ := truthyNum_some htr
    rw [hae, Option.getD_some] at hle
    exact ⟨a, hae, by omega⟩

/-- Witness for C10: a request whose amount field is exactly 0 is rejected as
missing fields, not as an invalid amount. -/
theorem money_transfer_truthiness_witness :
    money_transfer demoDB "u1" ⟨some uuidS, some uuidR, some 0⟩ 0 =
      (TransferResult.missingFields, demoDB) :=
  (money_transfer_truthiness demoDB "u1" "c1" { customer_id := some "c1" }
      ⟨some uuidS, some uuidR, some 0⟩ 0 rfl rfl rfl).1 rfl

end Banking
